import Mathlib

/-!
Verification of the routing and multi-turn parameter-collection state machine
of the Doctor-Scheduling-Assistant-Agent repository (a study-portal agent
orchestrator).  The Python sources are shallowly embedded below: Python
strings become `String`, dictionaries with dynamic keys become association
lists, `None`-able values become `Option`, and the two external capabilities
(intent classification and natural-language generation) become explicit
`Except`-valued parameters, so that a raising capability call is an
`Except.error` value.
-/

/- ## Python string primitives, modelled on character lists so that every
   operation reduces in the kernel. -/

/-- Is `n` a contiguous sub-list of the given list?  Models Python's
`needle in haystack` on strings. -/
def subSeq (n : List Char) : List Char → Bool
  | [] => n.isEmpty
  | c :: t => n.isPrefixOf (c :: t) || subSeq n t

/-- Python `needle in haystack` for strings: substring containment. -/
def containsSub (needle haystack : String) : Bool :=
  subSeq needle.toList haystack.toList

/-- Python `str.lower()` (ASCII is all the sources use). -/
def strLower (s : String) : String := ⟨s.toList.map Char.toLower⟩

/-- Python `str.strip()`: drop leading and trailing whitespace. -/
def strTrim (s : String) : String :=
  ⟨((s.toList.dropWhile Char.isWhitespace).reverse.dropWhile Char.isWhitespace).reverse⟩

/-- Worker for `pySplit`: `cur` is the current word, reversed. -/
def pySplitGo : List Char → List Char → List String
  | [], cur => if cur.isEmpty then [] else [⟨cur.reverse⟩]
  | c :: t, cur =>
    if c.isWhitespace then
      (if cur.isEmpty then pySplitGo t [] else (⟨cur.reverse⟩ : String) :: pySplitGo t [])
    else pySplitGo t (c :: cur)

/-- Python `str.split()` with no argument: split on whitespace runs,
discarding empty pieces. -/
def pySplit (s : String) : List String := pySplitGo s.toList []

/-- Worker for `pyTitle`; the flag says whether the previous character was
alphabetic. -/
def pyTitleGo : List Char → Bool → List Char
  | [], _ => []
  | c :: t, prevAlpha =>
    (if c.isAlpha then (if prevAlpha then c.toLower else c.toUpper) else c) :: pyTitleGo t c.isAlpha

/-- Python `str.title()`: uppercase every alphabetic character that follows a
non-alphabetic one, lowercase the rest. -/
def pyTitle (s : String) : String := ⟨pyTitleGo s.toList false⟩

/-- Digit run to number, most significant first. -/
def digitsToNat (cs : List Char) : Nat := cs.foldl (fun a c => a * 10 + (c.toNat - 48)) 0

/-- Worker for `firstNumber`. -/
def firstNumGo : List Char → Option Nat
  | [] => none
  | c :: t => if c.isDigit then some (digitsToNat (c :: t.takeWhile Char.isDigit)) else firstNumGo t

/-- Python `re.findall(r'\d+', s)[0]` as used in
`QuestionGenerationAgent.extract_parameters`: the first maximal digit run,
if any. -/
def firstNumber (s : String) : Option Nat := firstNumGo s.toList

/- ## Scratchpad values (Python dict values are strings or ints here). -/

/-- A value stored in the sub-agent scratchpad: the sources store strings
(topics, titles, levels) and one integer (`question_count`). -/
inductive Value where
  | str (s : String)
  | num (n : Nat)
deriving DecidableEq, Repr

/-- Python truthiness of a scratchpad value (`''` and `0` are falsy). -/
def Value.truthy : Value → Bool
  | .str s => !s.isEmpty
  | .num n => n != 0

/-- `sub_agent_scratchpad`: a Python dict from parameter name to value,
modelled as an insertion-ordered association list. -/
abbrev Scratchpad := List (String × Value)

/-- Python `dict.get(k)` returning `None` when absent. -/
def spGet : Scratchpad → String → Option Value
  | [], _ => none
  | (k0, v0) :: t, k => if k0 = k then some v0 else spGet t k

/-- Python `d[k] = v`: replace in place if present, else append. -/
def spSet : Scratchpad → String → Value → Scratchpad
  | [], k, v => [(k, v)]
  | (k0, v0) :: t, k, v => if k0 = k then (k, v) :: t else (k0, v0) :: spSet t k v

/-- Python truthiness of `scratchpad.get(k)` (`None`, `''` and `0` falsy). -/
def truthyGet (sp : Scratchpad) (k : String) : Bool :=
  match spGet sp k with
  | none => false
  | some v => v.truthy

/-- Python truthiness of an `Optional[str]` (`None` and `''` falsy). -/
def optTruthy : Option String → Bool
  | none => false
  | some v => !v.isEmpty

/- ## Session state (state.py `RootAgentState`); the `timestamp` field of
   `Message` is real time and is omitted. -/

/-- One conversation-history entry (state.py `Message`, minus timestamp). -/
structure Message where
  role : String
  content : String
deriving DecidableEq, Repr

/-- state.py `RootAgentState`: the shared session state. -/
structure RootAgentState where
  user_id : String
  user_role : String
  user_query : String
  conversation_history : List Message
  current_agent : Option String
  current_agent_awaiting_parameters : Option String
  sub_agent_scratchpad : Scratchpad
  system_response : String
  error : Option String
  current_assignment_id : Option String
  current_topic : Option String
deriving DecidableEq, Repr

/- ## Handler registry (root_agent.py `AgentInfo.AGENTS`). -/

/-- One registry entry of `AgentInfo.AGENTS`. -/
structure AgentEntry where
  name : String
  description : String
  keywords : List String
  roles : List String
  parameters : List String
deriving DecidableEq, Repr

/-- root_agent.py `AgentInfo.AGENTS`: the static handler registry. -/
def AGENTS : List (String × AgentEntry) :=
  [("assignment_review_agent",
    { name := "Assignment Review & Insight Agent"
      description := "Handles queries about assignments, grades, feedback, performance insights, and past reports"
      keywords := ["assignment", "grade", "feedback", "status", "due date", "results", "performance", "insights", "score", "report", "reports", "past", "previous", "history", "how did I do", "my work"]
      roles := ["Consultant"]
      parameters := ["assignment_id", "assignment_title"] }),
   ("learning_path_agent",
    { name := "Learning Path Recommendation Agent"
      description := "Provides learning recommendations, course suggestions, and study plans"
      keywords := ["learn", "study", "recommend", "course", "path", "plan", "guide", "resources", "progress", "tutorial", "want to learn", "teach me", "improve"]
      roles := ["Consultant"]
      parameters := ["topic", "skill_level"] }),
   ("question_generation_agent",
    { name := "Question Generation Agent"
      description := "Generates practice questions, quizzes, and assessments"
      keywords := ["generate", "create", "quiz", "questions", "test", "practice", "assessment", "exam"]
      roles := ["Admin"]
      parameters := ["topic", "difficulty", "question_count"] }),
   ("faq_fallback_agent",
    { name := "FAQ & Fallback Agent"
      description := "Handles general queries, FAQs, greetings, and fallback scenarios"
      keywords := ["help", "how to", "what is", "faq", "hello", "hi", "thank", "general"]
      roles := ["All"]
      parameters := [] })]

/-- root_agent.py `AgentInfo.get_agent_info`; Python returns `{}` for an
unknown name, modelled as `none`. -/
def get_agent_info (agent_name : String) : Option AgentEntry :=
  (AGENTS.find? (fun p => p.1 = agent_name)).map (fun p => p.2)

/-- root_agent.py `RootAgentRouter.check_role_permission`: an unknown agent
has no permissions; the `All` sentinel matches any role. -/
def check_role_permission (agent_name user_role : String) : Bool :=
  match get_agent_info agent_name with
  | none => false
  | some info => info.roles.contains "All" || info.roles.contains user_role

/- ## Router (root_agent.py `RootAgentRouter`). -/

/-- root_agent.py `analyze_context` abandonment keyword list. -/
def abandonment_keywords : List String := ["never mind", "cancel", "forget it", "stop", "quit"]

/-- root_agent.py `analyze_context`: `is_abandonment` is substring
containment of any abandonment keyword in the lowercased query. -/
def is_abandonment (q : String) : Bool :=
  abandonment_keywords.any (fun kw => containsSub kw (strLower q))

/-- The `CONTINUE_CURRENT` resolution step of `RootAgentRouter.route`:
substitute the awaiting handler when the classifier says to continue and
`current_agent_awaiting_parameters` is truthy. -/
def resolve_continue (agent_name : String) (s : RootAgentState) : String :=
  if agent_name = "CONTINUE_CURRENT" && optTruthy s.current_agent_awaiting_parameters then
    s.current_agent_awaiting_parameters.getD ""
  else agent_name

/-- The permission check at the end of `RootAgentRouter.route`: a resolved
non-fallback handler the role may not access is overridden to the fallback
handler. -/
def permission_gate (agent_name user_role : String) : String :=
  if agent_name = "faq_fallback_agent" then agent_name
  else if check_role_permission agent_name user_role then agent_name
  else "faq_fallback_agent"

/-- root_agent.py `RootAgentRouter.route`, with the classifier output (the
`routing_chain.invoke` result) passed in explicitly.  Abandonment while a
handler is awaiting returns the fallback handler before the classifier
output is even looked at; otherwise the stripped classifier output goes
through `CONTINUE_CURRENT` resolution and the permission gate. -/
def route (classifier_output : String) (s : RootAgentState) : String :=
  if is_abandonment s.user_query && s.current_agent_awaiting_parameters.isSome then
    "faq_fallback_agent"
  else
    permission_gate (resolve_continue (strTrim classifier_output) s) s.user_role

/-- `RootAgentRouter.route` with a fallible classifier: the classifier call
can raise (`Except.error`), but it is only reached when the abandonment
shortcut does not fire. -/
def routeE (classify : Except String String) (s : RootAgentState) : Except String String :=
  if is_abandonment s.user_query && s.current_agent_awaiting_parameters.isSome then
    Except.ok "faq_fallback_agent"
  else
    classify.map (fun out => permission_gate (resolve_continue (strTrim out) s) s.user_role)

/-- Convenience constructor for a session state in the shape
`orchestrator.main` creates it, with the fields the router and handlers
read set explicitly. -/
def mkState (role q : String) (awaiting : Option String) (sp : Scratchpad) : RootAgentState where
  user_id := "user123"
  user_role := role
  user_query := q
  conversation_history := []
  current_agent := none
  current_agent_awaiting_parameters := awaiting
  sub_agent_scratchpad := sp
  system_response := ""
  error := none
  current_assignment_id := none
  current_topic := none

/- ## Validation results (the dicts returned by `validate_parameters`). -/

/-- The dict returned by each agent's `validate_parameters`
(`clarification` is absent — `none` — in the complete case). -/
structure ValidationResult where
  complete : Bool
  missing : List String
  clarification : Option String
deriving DecidableEq, Repr

/- ## Assignment Review agent (agents/assignment_review_agent.py). -/

/-- `AssignmentReviewAgent.validate_parameters`: satisfied when
`assignment_id` OR `assignment_title` is truthy; otherwise one combined
missing entry. -/
def assignment_validate (sp : Scratchpad) : ValidationResult :=
  if truthyGet sp "assignment_id" || truthyGet sp "assignment_title" then
    { complete := true, missing := [], clarification := none }
  else
    { complete := false
      missing := ["assignment_id or assignment_title"]
      clarification := some "Which assignment are you interested in? Please provide the assignment name or ID." }

/-- The word scan of `AssignmentReviewAgent.extract_parameters`: every word
equal (lowercased) to assignment/task/homework with a successor word
overwrites `assignment_title` with the next one or two words. -/
def assignment_title_scan (words : List String) (sp : Scratchpad) : Scratchpad :=
  words.enum.foldl
    (fun acc iw =>
      if ["assignment", "task", "homework"].contains (strLower iw.2)
          && decide (iw.1 + 1 < words.length) then
        spSet acc "assignment_title" (Value.str (String.intercalate " " ((words.drop (iw.1 + 1)).take 2)))
      else acc)
    sp

/-- The scratchpad effect of `AssignmentReviewAgent.extract_parameters`:
`raw` is the raw query (Python splits the raw text but keyword-matches the
lowercased one). -/
def assignment_extract_sp (raw : String) (sp : Scratchpad) : Scratchpad :=
  if containsSub "python" (strLower raw) && containsSub "basic" (strLower raw) then
    spSet sp "assignment_title" (Value.str "Python Basics")
  else if containsSub "assignment" (strLower raw) then
    assignment_title_scan (pySplit raw) sp
  else sp

/-- `AssignmentReviewAgent.extract_parameters`. -/
def assignment_extract (s : RootAgentState) : RootAgentState :=
  { s with sub_agent_scratchpad := assignment_extract_sp s.user_query s.sub_agent_scratchpad }

/- ## Learning Path agent (agents/learning_path_agent.py). -/

/-- The closed topic candidate list of
`LearningPathAgent.extract_parameters`. -/
def learning_topics : List String :=
  ["machine learning", "python", "data science", "nlp", "natural language processing",
   "deep learning", "web development", "javascript", "react", "sql", "databases"]

/-- `LearningPathAgent.validate_parameters`. -/
def learning_validate (sp : Scratchpad) : ValidationResult :=
  let missing := (if truthyGet sp "topic" then [] else ["topic"])
      ++ (if truthyGet sp "skill_level" then [] else ["skill_level"])
  if missing.isEmpty then
    { complete := true, missing := [], clarification := none }
  else
    let clar := "To recommend the best learning resources for you, I need:\n"
    let clar := if missing.contains "topic" then
        clar ++ "- What topic would you like to learn?\n" else clar
    let clar := if missing.contains "skill_level" then
        clar ++ "- What is your current skill level? (Beginner/Intermediate/Advanced)\n" else clar
    { complete := false, missing := missing, clarification := some (strTrim clar) }

/-- The topic stage of `LearningPathAgent.extract_parameters` (`q` is the
lowercased query): first matching topic from the closed candidate list,
with the `nlp` spelling special case. -/
def learning_extract_topic (q : String) (sp : Scratchpad) : Scratchpad :=
  match learning_topics.find? (fun t => containsSub t q) with
  | some t => spSet sp "topic"
      (Value.str (if t = "nlp" then "Natural Language Processing" else pyTitle t))
  | none => sp

/-- The skill-level stage of `LearningPathAgent.extract_parameters`. -/
def learning_extract_level (q : String) (sp : Scratchpad) : Scratchpad :=
  if containsSub "beginner" q || containsSub "new to" q || containsSub "starting" q then
    spSet sp "skill_level" (Value.str "Beginner")
  else if containsSub "intermediate" q || containsSub "some experience" q then
    spSet sp "skill_level" (Value.str "Intermediate")
  else if containsSub "advanced" q || containsSub "expert" q then
    spSet sp "skill_level" (Value.str "Advanced")
  else sp

/-- `LearningPathAgent.extract_parameters`. -/
def learning_extract (s : RootAgentState) : RootAgentState :=
  let q := strLower s.user_query
  let sp := learning_extract_level q (learning_extract_topic q s.sub_agent_scratchpad)
  { s with sub_agent_scratchpad := sp }

/- ## Question Generation agent (agents/question_generation_agent.py). -/

/-- The closed topic candidate list of
`QuestionGenerationAgent.extract_parameters`. -/
def qgen_topics : List String :=
  ["python", "machine learning", "data science", "sql", "javascript",
   "algorithms", "data structures", "web development"]

/-- `QuestionGenerationAgent.validate_parameters`.  Python mutates the
scratchpad in place to install the `question_count` default of 5, so the
updated scratchpad is returned alongside the result dict. -/
def qgen_validate (sp : Scratchpad) : ValidationResult × Scratchpad :=
  let missing := (if truthyGet sp "topic" then [] else ["topic"])
      ++ (if truthyGet sp "difficulty" then [] else ["difficulty"])
  let sp2 := if truthyGet sp "question_count" then sp else spSet sp "question_count" (Value.num 5)
  if missing.isEmpty then
    ({ complete := true, missing := [], clarification := none }, sp2)
  else
    let clar := "To generate questions, I need:\n"
    let clar := if missing.contains "topic" then
        clar ++ "- What topic should the questions cover?\n" else clar
    let clar := if missing.contains "difficulty" then
        clar ++ "- What difficulty level? (Easy/Medium/Hard)\n" else clar
    ({ complete := false, missing := missing, clarification := some (strTrim clar) }, sp2)

/-- The topic stage of `QuestionGenerationAgent.extract_parameters`. -/
def qgen_extract_topic (q : String) (sp : Scratchpad) : Scratchpad :=
  match qgen_topics.find? (fun t => containsSub t q) with
  | some t => spSet sp "topic" (Value.str (pyTitle t))
  | none => sp

/-- The difficulty stage of `QuestionGenerationAgent.extract_parameters`. -/
def qgen_extract_difficulty (q : String) (sp : Scratchpad) : Scratchpad :=
  if containsSub "easy" q || containsSub "beginner" q then
    spSet sp "difficulty" (Value.str "Easy")
  else if containsSub "medium" q || containsSub "intermediate" q then
    spSet sp "difficulty" (Value.str "Medium")
  else if containsSub "hard" q || containsSub "advanced" q || containsSub "difficult" q then
    spSet sp "difficulty" (Value.str "Hard")
  else sp

/-- The count stage of `QuestionGenerationAgent.extract_parameters`:
`re.findall` on the lowercased query, first number wins. -/
def qgen_extract_count (q : String) (sp : Scratchpad) : Scratchpad :=
  match firstNumber q with
  | some n => spSet sp "question_count" (Value.num n)
  | none => sp

/-- `QuestionGenerationAgent.extract_parameters`. -/
def qgen_extract (s : RootAgentState) : RootAgentState :=
  let q := strLower s.user_query
  let sp := qgen_extract_count q (qgen_extract_difficulty q (qgen_extract_topic q s.sub_agent_scratchpad))
  { s with sub_agent_scratchpad := sp }

/- ## FAQ / Fallback agent (agents/faq_fallback_agent.py). -/

/-- `FAQFallbackAgent.faq_db`: the literal keyword-to-answer table, in
insertion order. -/
def faq_db : List (String × String) :=
  [("how to submit assignment",
    "To submit an assignment, log into the portal, navigate to your Assignments section, select the assignment, and click the \"Submit\" button. You can upload files or paste your work directly."),
   ("how to check grades",
    "You can check your grades by going to the Assignments section and clicking on any completed assignment. Your grade and feedback will be displayed."),
   ("forgot password",
    "To reset your password, click on \"Forgot Password\" on the login page. Enter your email, and you\x27ll receive a password reset link."),
   ("portal features",
    "The portal offers assignment tracking, grade viewing, learning path recommendations, and practice question generation (for admins). You can also view your performance insights."),
   ("contact support",
    "You can contact support by emailing support@studyportal.com or using the \"Contact Us\" form in the Help section.")]

/-- `FAQFallbackAgent.search_faq`: first table entry for which any word of
the key is a substring of the lowercased query. -/
def search_faq (user_query : String) : Option String :=
  let ql := strLower user_query
  (faq_db.find? (fun kv => (pySplit kv.1).any (fun w => containsSub w ql))).map (fun kv => kv.2)

/-- The greeting keyword set of `FAQFallbackAgent.handle_greeting`. -/
def greetings : List String :=
  ["hello", "hi", "hey", "good morning", "good afternoon", "good evening"]

/-- The gratitude keyword set of `FAQFallbackAgent.handle_thanks`. -/
def thanks_keywords : List String := ["thank", "thanks", "appreciate", "grateful"]

/-- `FAQFallbackAgent.handle_greeting`. -/
def handle_greeting (user_query : String) : Bool :=
  greetings.any (fun g => containsSub g (strLower user_query))

/-- `FAQFallbackAgent.handle_thanks`. -/
def handle_thanks (user_query : String) : Bool :=
  thanks_keywords.any (fun t => containsSub t (strLower user_query))

/-- The fixed greeting answer of `FAQFallbackAgent.generate_response`. -/
def faq_greeting_response : String :=
  "Hello! I\x27m here to help you with your study portal. You can ask me about:\n- Your assignments and grades\n- Learning recommendations\n- General questions about the portal\n\nWhat would you like to know?"

/-- The fixed gratitude answer of `FAQFallbackAgent.generate_response`. -/
def faq_thanks_response : String :=
  "You\x27re welcome! Feel free to ask if you need anything else. Happy learning! 😊"

/-- `FAQFallbackAgent.generate_response`: greeting, then thanks, then the
FAQ table, and only then the (fallible) generation capability `gen`. -/
def faq_generate_response (gen : String → Except String String) (user_query : String) :
    Except String String :=
  if handle_greeting user_query then Except.ok faq_greeting_response
  else if handle_thanks user_query then Except.ok faq_thanks_response
  else
    match search_faq user_query with
    | some a => Except.ok a
    | none => gen user_query

/- ## LangGraph nodes.  Each node is parameterized by its agent's
   `generate_response` (the only place the generation capability is
   invoked), a fallible external call. -/

/-- agents/assignment_review_agent.py `assignment_review_node`:
extract, validate, then clarify (incomplete) or respond (complete). -/
def assignment_review_node (gen : RootAgentState → Except String String)
    (s : RootAgentState) : Except String RootAgentState :=
  let s1 := assignment_extract s
  let v := assignment_validate s1.sub_agent_scratchpad
  if v.complete = false then
    Except.ok { s1 with
      system_response := v.clarification.getD ""
      current_agent_awaiting_parameters := some "assignment_review_agent" }
  else
    (gen s1).map (fun txt => { s1 with
      system_response := txt
      current_agent_awaiting_parameters := none
      sub_agent_scratchpad := [] })

/-- agents/learning_path_agent.py `learning_path_node`. -/
def learning_path_node (gen : RootAgentState → Except String String)
    (s : RootAgentState) : Except String RootAgentState :=
  let s1 := learning_extract s
  let v := learning_validate s1.sub_agent_scratchpad
  if v.complete = false then
    Except.ok { s1 with
      system_response := v.clarification.getD ""
      current_agent_awaiting_parameters := some "learning_path_agent" }
  else
    (gen s1).map (fun txt => { s1 with
      system_response := txt
      current_agent_awaiting_parameters := none
      sub_agent_scratchpad := [] })

/-- The denial message of `question_generation_node`. -/
def qgen_denial : String :=
  "I\x27m sorry, but question generation is only available to Admin users. You are currently logged in as a Consultant."

/-- agents/question_generation_agent.py `question_generation_node`: an
internal Admin check short-circuits before extraction; the validate step
threads its scratchpad mutation (the `question_count` default) back into
the state. -/
def question_generation_node (gen : RootAgentState → Except String String)
    (s : RootAgentState) : Except String RootAgentState :=
  if (s.user_role = "Admin" : Bool) = false then
    Except.ok { s with
      system_response := qgen_denial
      current_agent_awaiting_parameters := none
      sub_agent_scratchpad := [] }
  else
    let s1 := qgen_extract s
    let vp := qgen_validate s1.sub_agent_scratchpad
    let s2 := { s1 with sub_agent_scratchpad := vp.2 }
    if vp.1.complete = false then
      Except.ok { s2 with
        system_response := vp.1.clarification.getD ""
        current_agent_awaiting_parameters := some "question_generation_agent" }
    else
      (gen s2).map (fun txt => { s2 with
        system_response := txt
        current_agent_awaiting_parameters := none
        sub_agent_scratchpad := [] })

/-- agents/faq_fallback_agent.py `faq_fallback_node`: always ends with no
awaiting handler and an empty scratchpad. -/
def faq_fallback_node (gen : String → Except String String)
    (s : RootAgentState) : Except String RootAgentState :=
  (faq_generate_response gen s.user_query).map (fun txt => { s with
    system_response := txt
    current_agent_awaiting_parameters := none
    sub_agent_scratchpad := [] })

/- ## Orchestrator (orchestrator.py) and hosts. -/

/-- The external capabilities of one turn: the classifier call made by
`RootAgentRouter.route`, and the per-agent `generate_response` calls.
Each is fallible (`Except.error` models a raised exception). -/
structure Caps where
  classify : Except String String
  genAssignment : RootAgentState → Except String String
  genLearning : RootAgentState → Except String String
  genQuestion : RootAgentState → Except String String
  genFaq : String → Except String String

/-- The conditional edge of `create_orchestrator_graph`: dispatch on the
router's decision to the matching node. -/
def dispatch (caps : Caps) (agent : String) (s : RootAgentState) :
    Except String RootAgentState :=
  if agent = "assignment_review_agent" then assignment_review_node caps.genAssignment s
  else if agent = "learning_path_agent" then learning_path_node caps.genLearning s
  else if agent = "question_generation_agent" then question_generation_node caps.genQuestion s
  else if agent = "faq_fallback_agent" then faq_fallback_node caps.genFaq s
  else Except.error ("Unknown agent: " ++ agent)

/-- The in-place `conversation_history.append` of the user message at the
start of `StudyPortalOrchestrator.process_message`. -/
def with_user_message (s : RootAgentState) : RootAgentState :=
  { s with conversation_history :=
      s.conversation_history ++ [{ role := "user", content := s.user_query }] }

/-- The `conversation_history.append` of the assistant message at the end
of `StudyPortalOrchestrator.process_message`. -/
def with_assistant_message (s : RootAgentState) : RootAgentState :=
  { s with conversation_history :=
      s.conversation_history ++ [{ role := "assistant", content := s.system_response }] }

/-- root_agent.py `router_node` writing the routing decision into
`current_agent`. -/
def set_current_agent (s : RootAgentState) (agent : String) : RootAgentState :=
  { s with current_agent := some agent }

/-- orchestrator.py `StudyPortalOrchestrator.process_message`: append the
user message to the history, route (the `router_node` sets
`current_agent`), dispatch, append the assistant message.  Any raising
capability call aborts the turn with `Except.error`. -/
def process_message (caps : Caps) (s : RootAgentState) : Except String RootAgentState :=
  Except.bind (routeE caps.classify (with_user_message s)) (fun agent =>
    Except.bind (dispatch caps agent (set_current_agent (with_user_message s) agent)) (fun s2 =>
      Except.ok (with_assistant_message s2)))

/-- One iteration of the conversation loop of orchestrator.py `main`: on a
raised exception the loop prints a generic error message and resets
`current_agent_awaiting_parameters` and `sub_agent_scratchpad`; the
session's `error` field is not written. -/
def main_turn (caps : Caps) (s : RootAgentState) : RootAgentState :=
  match process_message caps s with
  | Except.ok s2 => s2
  | Except.error _ =>
    { s with current_agent_awaiting_parameters := none, sub_agent_scratchpad := [] }

/-- The scratchpad dict mutations a dispatched node has performed in place
by the time its generation call raises.  The session's scratchpad object is
shared by reference with the LangGraph nodes, and each node's extract (and
the question-generation validate's count default) writes into that shared
dict before `generate_response` is invoked, so these writes survive a
raising generation call; a node raises only in its generation call, after
those writes.  The fallback node writes nothing before generating, and the
question-generation node writes nothing on its non-Admin denial path
(which never raises). -/
def dispatch_error_scratchpad (agent : String) (sn : RootAgentState) : Scratchpad :=
  if agent = "assignment_review_agent" then (assignment_extract sn).sub_agent_scratchpad
  else if agent = "learning_path_agent" then (learning_extract sn).sub_agent_scratchpad
  else if agent = "question_generation_agent" then
    (if (sn.user_role = "Admin" : Bool) = false then sn.sub_agent_scratchpad
     else (qgen_validate (qgen_extract sn).sub_agent_scratchpad).2)
  else sn.sub_agent_scratchpad

/-- The session as left behind when `process_message` raises inside the
websocket handler: the handler does not replace the session, but the
in-place mutations made before the failure remain — the appended user
history entry always, and, when the failure came from a dispatched node's
generation call (the router already succeeded), the node's in-place
scratchpad writes, because the scratchpad dict is aliased between the
session and the node.  Top-level key assignments made by nodes
(`current_agent`, awaiting marker, response) act on the node's own state
dict and do not reach the session. -/
def ws_error_session (caps : Caps) (s1 : RootAgentState) : RootAgentState :=
  match routeE caps.classify (with_user_message s1) with
  | Except.error _ => with_user_message s1
  | Except.ok agent =>
    { with_user_message s1 with
        sub_agent_scratchpad :=
          dispatch_error_scratchpad agent (set_current_agent (with_user_message s1) agent) }

/-- websocket_server.py `WebSocketHandler.handle_message`, restricted to the
session-state effects: an empty stripped query leaves the session alone; on
success the session becomes the turn's result; on a raised exception an
error message is sent and the session is not replaced, retaining the
in-place mutations modelled by `ws_error_session`. -/
def ws_handle_message (caps : Caps) (s : RootAgentState) (raw_query : String) : RootAgentState :=
  let q := strTrim raw_query
  if q = "" then s
  else
    let s1 := { s with user_query := q }
    match process_message caps s1 with
    | Except.ok s2 => s2
    | Except.error _ => ws_error_session caps s1

/- ## Concrete sessions and capabilities used by witnesses and
   counterexamples. -/

/-- Capabilities whose classifier call raises. -/
def exCapsFail : Caps where
  classify := Except.error "classifier raised"
  genAssignment := fun _ => Except.ok "generated assignment answer"
  genLearning := fun _ => Except.ok "generated learning answer"
  genQuestion := fun _ => Except.ok "generated question answer"
  genFaq := fun _ => Except.ok "generated faq answer"

/-- Capabilities that all succeed, with a classifier decision fixed per
scenario via `withClassify`. -/
def exCapsOk : Caps where
  classify := Except.ok "faq_fallback_agent"
  genAssignment := fun _ => Except.ok "generated assignment answer"
  genLearning := fun _ => Except.ok "generated learning answer"
  genQuestion := fun _ => Except.ok "generated question answer"
  genFaq := fun _ => Except.ok "generated faq answer"

/-- Replace the classifier decision of a capability bundle. -/
def withClassify (c : Caps) (out : String) : Caps := { c with classify := Except.ok out }

/-- Capabilities whose classifier succeeds (selecting the learning-path
handler) but whose learning-path generation call raises. -/
def exCapsGenFail : Caps where
  classify := Except.ok "learning_path_agent"
  genAssignment := fun _ => Except.ok "generated assignment answer"
  genLearning := fun _ => Except.error "generation raised"
  genQuestion := fun _ => Except.ok "generated question answer"
  genFaq := fun _ => Except.ok "generated faq answer"

/-- A generation capability that always raises, used to show the fixed FAQ
tiers never reach the generative tier. -/
def genErrFaq : String → Except String String := fun _ => Except.error "llm raised"

/-- A constant successful per-agent generation capability. -/
def genOkAgent : RootAgentState → Except String String := fun _ => Except.ok "generated answer"

/-- A session mid-collection for the learning-path handler. -/
def exStateCollecting : RootAgentState :=
  mkState "Consultant" "i want to learn python" (some "learning_path_agent")
    [("topic", Value.str "Python")]

/-- A mid-collection session whose next utterance is an abandonment
phrase. -/
def exStateAbandon : RootAgentState :=
  mkState "Consultant" "never mind" (some "learning_path_agent") [("topic", Value.str "Python")]

/-- The question-generation node's intermediate state: extraction followed
by the validate step's in-place scratchpad mutation. -/
def qgen_validated_state (s : RootAgentState) : RootAgentState :=
  { qgen_extract s with
    sub_agent_scratchpad := (qgen_validate (qgen_extract s).sub_agent_scratchpad).2 }

instance {ε α : Type} [DecidableEq ε] [DecidableEq α] : DecidableEq (Except ε α) := fun x y =>
  match x, y with
  | .ok a, .ok b =>
    if h : a = b then isTrue (by rw [h]) else isFalse (by intro hc; injection hc; contradiction)
  | .error a, .error b =>
    if h : a = b then isTrue (by rw [h]) else isFalse (by intro hc; injection hc; contradiction)
  | .ok _, .error _ => isFalse (by intro hc; cases hc)
  | .error _, .ok _ => isFalse (by intro hc; cases hc)

/-- The Scenario-D session: an Admin asking "Generate 5 Python questions"
on a fresh session. -/
def exAdminState5 : RootAgentState := mkState "Admin" "Generate 5 Python questions" none []

/-- The state `question_generation_node` produces for `exAdminState5`:
extraction has filled topic and count, validation has installed the count
default and asks for the difficulty only. -/
def qgenScenarioOut : RootAgentState :=
  { qgen_extract exAdminState5 with
    sub_agent_scratchpad := (qgen_validate (qgen_extract exAdminState5).sub_agent_scratchpad).2
    system_response :=
      (qgen_validate (qgen_extract exAdminState5).sub_agent_scratchpad).1.clarification.getD ""
    current_agent_awaiting_parameters := some "question_generation_agent" }

/- ## Helper lemmas. -/

theorem except_map_ok {ε α β : Type} (f : α → β) (a : α) :
    (Except.ok a : Except ε α).map f = Except.ok (f a) := rfl

theorem except_map_error {ε α β : Type} (f : α → β) (e : ε) :
    (Except.error e : Except ε α).map f = Except.error e := rfl

/-- Reading through a dict update: the updated key yields the new value,
any other key is untouched. -/
theorem spGet_spSet (sp : Scratchpad) (k2 k : String) (v : Value) :
    spGet (spSet sp k2 v) k = if k2 = k then some v else spGet sp k := by
  induction sp with
  | nil => simp [spSet, spGet]
  | cons hd t ih =>
    obtain ⟨k0, v0⟩ := hd
    by_cases h1 : k0 = k2 <;> by_cases h2 : k2 = k <;> by_cases h3 : k0 = k <;>
      simp_all [spSet, spGet]

/-- A key present in a dict stays present across any update. -/
theorem spGet_isSome_spSet (sp : Scratchpad) (k2 k : String) (v : Value)
    (h : (spGet sp k).isSome = true) :
    (spGet (spSet sp k2 v) k).isSome = true := by
  rw [spGet_spSet]
  split
  · rfl
  · exact h

/-- Key presence survives a fold whose every step preserves it. -/
theorem foldl_preserves_some {α : Type} (f : Scratchpad → α → Scratchpad)
    (hf : ∀ sp a k, (spGet sp k).isSome = true → (spGet (f sp a) k).isSome = true)
    (l : List α) :
    ∀ (sp : Scratchpad) (k : String),
      (spGet sp k).isSome = true → (spGet (l.foldl f sp) k).isSome = true := by
  induction l with
  | nil => intro sp k h; simpa using h
  | cons a t ih => intro sp k h; exact ih (f sp a) k (hf sp a k h)

theorem assignment_title_scan_mono (words : List String) (sp : Scratchpad) (k : String)
    (h : (spGet sp k).isSome = true) :
    (spGet (assignment_title_scan words sp) k).isSome = true := by
  unfold assignment_title_scan
  refine foldl_preserves_some _ ?_ _ sp k h
  intro sp2 a k2 h2
  dsimp only
  split
  · exact spGet_isSome_spSet _ _ _ _ h2
  · exact h2

theorem assignment_extract_sp_mono (raw : String) (sp : Scratchpad) (k : String)
    (h : (spGet sp k).isSome = true) :
    (spGet (assignment_extract_sp raw sp) k).isSome = true := by
  unfold assignment_extract_sp
  split
  · exact spGet_isSome_spSet _ _ _ _ h
  · split
    · exact assignment_title_scan_mono _ _ _ h
    · exact h

theorem learning_extract_topic_mono (q : String) (sp : Scratchpad) (k : String)
    (h : (spGet sp k).isSome = true) :
    (spGet (learning_extract_topic q sp) k).isSome = true := by
  unfold learning_extract_topic
  split
  · exact spGet_isSome_spSet _ _ _ _ h
  · exact h

theorem learning_extract_level_mono (q : String) (sp : Scratchpad) (k : String)
    (h : (spGet sp k).isSome = true) :
    (spGet (learning_extract_level q sp) k).isSome = true := by
  unfold learning_extract_level
  split
  · exact spGet_isSome_spSet _ _ _ _ h
  · split
    · exact spGet_isSome_spSet _ _ _ _ h
    · split
      · exact spGet_isSome_spSet _ _ _ _ h
      · exact h

theorem learning_extract_mono (s : RootAgentState) (k : String)
    (h : (spGet s.sub_agent_scratchpad k).isSome = true) :
    (spGet (learning_extract s).sub_agent_scratchpad k).isSome = true := by
  unfold learning_extract
  exact learning_extract_level_mono _ _ _ (learning_extract_topic_mono _ _ _ h)

theorem assignment_extract_mono (s : RootAgentState) (k : String)
    (h : (spGet s.sub_agent_scratchpad k).isSome = true) :
    (spGet (assignment_extract s).sub_agent_scratchpad k).isSome = true := by
  unfold assignment_extract
  exact assignment_extract_sp_mono _ _ _ h

theorem qgen_extract_topic_mono (q : String) (sp : Scratchpad) (k : String)
    (h : (spGet sp k).isSome = true) :
    (spGet (qgen_extract_topic q sp) k).isSome = true := by
  unfold qgen_extract_topic
  split
  · exact spGet_isSome_spSet _ _ _ _ h
  · exact h

theorem qgen_extract_difficulty_mono (q : String) (sp : Scratchpad) (k : String)
    (h : (spGet sp k).isSome = true) :
    (spGet (qgen_extract_difficulty q sp) k).isSome = true := by
  unfold qgen_extract_difficulty
  split
  · exact spGet_isSome_spSet _ _ _ _ h
  · split
    · exact spGet_isSome_spSet _ _ _ _ h
    · split
      · exact spGet_isSome_spSet _ _ _ _ h
      · exact h

theorem qgen_extract_count_mono (q : String) (sp : Scratchpad) (k : String)
    (h : (spGet sp k).isSome = true) :
    (spGet (qgen_extract_count q sp) k).isSome = true := by
  unfold qgen_extract_count
  split
  · exact spGet_isSome_spSet _ _ _ _ h
  · exact h

theorem qgen_extract_mono (s : RootAgentState) (k : String)
    (h : (spGet s.sub_agent_scratchpad k).isSome = true) :
    (spGet (qgen_extract s).sub_agent_scratchpad k).isSome = true := by
  unfold qgen_extract
  exact qgen_extract_count_mono _ _ _
    (qgen_extract_difficulty_mono _ _ _ (qgen_extract_topic_mono _ _ _ h))

/-- The permission gate either falls back or passes the name through with
the role check satisfied. -/
theorem permission_gate_cases (a r : String) :
    permission_gate a r = "faq_fallback_agent" ∨
      (permission_gate a r = a ∧ check_role_permission a r = true) := by
  unfold permission_gate
  split
  · exact Or.inl (by assumption)
  · split
    · exact Or.inr ⟨rfl, by assumption⟩
    · exact Or.inl rfl

/-- Whatever the classifier output, `route` only returns the fallback
handler or a handler the current role may access. -/
theorem route_closure (out : String) (s : RootAgentState) :
    route out s = "faq_fallback_agent" ∨
      check_role_permission (route out s) s.user_role = true := by
  unfold route
  split
  · exact Or.inl rfl
  · rcases permission_gate_cases (resolve_continue (strTrim out) s) s.user_role with h | ⟨h1, h2⟩
    · exact Or.inl h
    · exact Or.inr (by rw [h1]; exact h2)

/-- The fallback node always ends the turn with no awaiting handler and an
empty scratchpad. -/
theorem faq_fallback_node_clears (gen : String → Except String String)
    (s s2 : RootAgentState) (h : faq_fallback_node gen s = Except.ok s2) :
    s2.current_agent_awaiting_parameters = none ∧ s2.sub_agent_scratchpad = [] := by
  unfold faq_fallback_node at h
  cases hg : faq_generate_response gen s.user_query with
  | error e => rw [hg, except_map_error] at h; cases h
  | ok txt =>
    rw [hg, except_map_ok] at h
    injection h with h2
    rw [← h2]
    exact ⟨rfl, rfl⟩

/- ## Claim theorems. -/

/-- C2: for a handler whose allowed-role set is not the `All` sentinel
(assignment review, learning path, question generation) and a role outside
its allowed set, `route` never returns that handler regardless of the
classifier output; when resolution lands on it the gate overrides to
`faq_fallback_agent`; and the `All` sentinel of the fallback handler
matches every role. -/
theorem C2_role_gate (out : String) (s : RootAgentState) (H : String)
    (hH : H = "assignment_review_agent" ∨ H = "learning_path_agent" ∨
      H = "question_generation_agent")
    (hperm : check_role_permission H s.user_role = false) :
    route out s ≠ H ∧
    (resolve_continue (strTrim out) s = H → route out s = "faq_fallback_agent") ∧
    (∀ r : String, check_role_permission "faq_fallback_agent" r = true) := by
  have hnf : H ≠ "faq_fallback_agent" := by
    rcases hH with h | h | h <;> subst h <;> decide
  refine ⟨?_, ?_, ?_⟩
  · intro he
    rcases route_closure out s with h | h
    · exact hnf (he ▸ h)
    · rw [he, hperm] at h
      cases h
  · intro hres
    unfold route
    split
    · rfl
    · rw [hres]
      unfold permission_gate
      rw [if_neg hnf, hperm]
      simp
  · intro r
    have h1 : check_role_permission "faq_fallback_agent" r
        = (List.contains ["All"] "All" || List.contains ["All"] r) := rfl
    rw [h1, show (List.contains ["All"] "All") = true from rfl, Bool.true_or]

/-- C2 witness: a Consultant asking for question generation is routed to
the fallback handler even when the classifier names the Admin-only
handler. -/
theorem C2_role_gate_witness :
    route "question_generation_agent"
      (mkState "Consultant" "Generate 5 Python questions" none []) ≠ "question_generation_agent" :=
  (C2_role_gate "question_generation_agent"
    (mkState "Consultant" "Generate 5 Python questions" none [])
    "question_generation_agent" (Or.inr (Or.inr rfl)) (by decide)).1

/-- C3 counterexample: the assignment-review validator is satisfied by ONE
of its two registry parameters (here only `assignment_id`), so a scratchpad
with fewer than two satisfied slots can still be complete; and with neither
present, `missing` is the single combined entry, not the two registry
names. -/
theorem C3_counterexample :
    ((get_agent_info "assignment_review_agent").map (fun i => i.parameters))
      = some ["assignment_id", "assignment_title"] ∧
    (assignment_validate [("assignment_id", Value.str "A1")]).complete = true ∧
    (assignment_validate []).complete = false ∧
    (assignment_validate []).missing ≠ ["assignment_id", "assignment_title"] := by decide

/-- C3 amended: the learning-path validator does report exactly the
unsatisfied registry parameters in registry order; the assignment-review
validator instead treats its two parameters disjunctively (complete iff
either is truthy) and reports the single combined entry
"assignment_id or assignment_title" when both are absent. -/
theorem C3_missing_exact (sp : Scratchpad) :
    ((get_agent_info "learning_path_agent").map (fun i => i.parameters))
      = some ["topic", "skill_level"] ∧
    (learning_validate sp).missing
      = ["topic", "skill_level"].filter (fun p => !truthyGet sp p) ∧
    ((learning_validate sp).complete = true ↔ (learning_validate sp).missing = []) ∧
    (assignment_validate sp).complete
      = (truthyGet sp "assignment_id" || truthyGet sp "assignment_title") ∧
    ((assignment_validate sp).complete = false →
      (assignment_validate sp).missing = ["assignment_id or assignment_title"]) := by
  refine ⟨by decide, ?_, ?_, ?_, ?_⟩
  · cases h1 : truthyGet sp "topic" <;> cases h2 : truthyGet sp "skill_level" <;>
      simp [learning_validate, h1, h2, List.filter]
  · cases h1 : truthyGet sp "topic" <;> cases h2 : truthyGet sp "skill_level" <;>
      simp [learning_validate, h1, h2]
  · cases h3 : truthyGet sp "assignment_id" <;> cases h4 : truthyGet sp "assignment_title" <;>
      simp [assignment_validate, h3, h4]
  · intro hc
    cases h3 : truthyGet sp "assignment_id" <;> cases h4 : truthyGet sp "assignment_title" <;>
      simp_all [assignment_validate]

/-- C3 amended witness: with an empty scratchpad the assignment-review
validator reports the combined missing entry. -/
theorem C3_missing_exact_witness :
    (assignment_validate []).missing = ["assignment_id or assignment_title"] :=
  (C3_missing_exact []).2.2.2.2 (by decide)

/-- The classifier directive `CONTINUE_CURRENT` has no registry entry, so
the permission check rejects it for every role. -/
theorem check_continue_current_false (r : String) :
    check_role_permission "CONTINUE_CURRENT" r = false := rfl

/-- C6: when the classifier answers `CONTINUE_CURRENT` and a handler is
awaiting, resolution substitutes the awaiting handler; `CONTINUE_CURRENT`
with nothing awaiting, and any output with no registry entry, make `route`
return the fallback handler (and `route` is a total function — it never
raises). -/
theorem C6_classifier_contract (out : String) (s : RootAgentState) :
    (∀ H, s.current_agent_awaiting_parameters = some H → H ≠ "" →
      resolve_continue "CONTINUE_CURRENT" s = H) ∧
    (s.current_agent_awaiting_parameters = none →
      route "CONTINUE_CURRENT" s = "faq_fallback_agent") ∧
    (strTrim out ≠ "CONTINUE_CURRENT" → get_agent_info (strTrim out) = none →
      route out s = "faq_fallback_agent") := by
  refine ⟨?_, ?_, ?_⟩
  · intro H haw hne
    have hemp : H.isEmpty = false := by
      cases hie : H.isEmpty
      · rfl
      · exact absurd ((String.isEmpty_iff H).mp hie) hne
    unfold resolve_continue
    rw [haw]
    simp [optTruthy, hemp]
  · intro hnone
    unfold route
    split
    · rfl
    · have hres : resolve_continue (strTrim "CONTINUE_CURRENT") s = "CONTINUE_CURRENT" := by
        unfold resolve_continue
        rw [show strTrim "CONTINUE_CURRENT" = "CONTINUE_CURRENT" from by decide, hnone]
        simp [optTruthy]
      rw [hres]
      unfold permission_gate
      rw [if_neg (by decide : ¬("CONTINUE_CURRENT" = "faq_fallback_agent"))]
      rw [check_continue_current_false]
      simp
  · intro hne hinfo
    have hnf : strTrim out ≠ "faq_fallback_agent" := by
      intro h
      rw [h] at hinfo
      exact absurd hinfo (by decide)
    have hres : resolve_continue (strTrim out) s = strTrim out := by
      unfold resolve_continue
      rw [if_neg]
      intro hb
      rw [Bool.and_eq_true] at hb
      exact hne (of_decide_eq_true hb.1)
    have hcrp : check_role_permission (strTrim out) s.user_role = false := by
      unfold check_role_permission
      rw [hinfo]
    unfold route
    split
    · rfl
    · rw [hres]
      unfold permission_gate
      rw [if_neg hnf, hcrp]
      simp

/-- C6 witness: with nothing awaiting, both `CONTINUE_CURRENT` and an
unknown classifier output fall back; and with the learning-path handler
awaiting, `CONTINUE_CURRENT` resolves to it. -/
theorem C6_classifier_contract_witness :
    route "banana_agent" (mkState "Consultant" "what is python" none []) = "faq_fallback_agent" ∧
    route "CONTINUE_CURRENT" (mkState "Consultant" "what is python" none []) = "faq_fallback_agent" ∧
    resolve_continue "CONTINUE_CURRENT"
      (mkState "Consultant" "python please" (some "learning_path_agent") []) = "learning_path_agent" := by
  refine ⟨?_, ?_, ?_⟩
  · exact (C6_classifier_contract "banana_agent"
      (mkState "Consultant" "what is python" none [])).2.2 (by decide) (by decide)
  · exact (C6_classifier_contract "CONTINUE_CURRENT"
      (mkState "Consultant" "what is python" none [])).2.1 rfl
  · exact (C6_classifier_contract "CONTINUE_CURRENT"
      (mkState "Consultant" "python please" (some "learning_path_agent") [])).1
      "learning_path_agent" rfl (by decide)

/-- C7: for each parameter-collecting handler, a slot present in the
scratchpad after extracting a first utterance is still present after
extracting a second utterance on the resulting state — extraction only
adds or overwrites slots, never removes them. -/
theorem C7_extract_monotone (s : RootAgentState) (u1 u2 k : String) :
    ((spGet (assignment_extract { s with user_query := u1 }).sub_agent_scratchpad k).isSome = true →
      (spGet (assignment_extract
        { assignment_extract { s with user_query := u1 } with
          user_query := u2 }).sub_agent_scratchpad k).isSome = true) ∧
    ((spGet (learning_extract { s with user_query := u1 }).sub_agent_scratchpad k).isSome = true →
      (spGet (learning_extract
        { learning_extract { s with user_query := u1 } with
          user_query := u2 }).sub_agent_scratchpad k).isSome = true) ∧
    ((spGet (qgen_extract { s with user_query := u1 }).sub_agent_scratchpad k).isSome = true →
      (spGet (qgen_extract
        { qgen_extract { s with user_query := u1 } with
          user_query := u2 }).sub_agent_scratchpad k).isSome = true) := by
  refine ⟨?_, ?_, ?_⟩
  · intro h
    exact assignment_extract_mono _ _ h
  · intro h
    exact learning_extract_mono _ _ h
  · intro h
    exact qgen_extract_mono _ _ h

/-- C7 witness: a topic collected from a first utterance survives a second
extraction on an utterance that mentions no topic. -/
theorem C7_extract_monotone_witness :
    (spGet (learning_extract
      { mkState "Consultant" "hello" none [] with
        user_query := "i want to learn python" }).sub_agent_scratchpad "topic").isSome = true ∧
    (spGet (learning_extract
      { learning_extract { mkState "Consultant" "hello" none [] with
          user_query := "i want to learn python" } with
        user_query := "no recognizable words" }).sub_agent_scratchpad "topic").isSome = true :=
  ⟨by decide,
   (C7_extract_monotone (mkState "Consultant" "hello" none [])
     "i want to learn python" "no recognizable words" "topic").2.1 (by decide)⟩

/-- C9: the fallback handler answers in a strict three-tier cascade —
greeting and gratitude keyword sets with fixed texts (no generation call,
whatever the generation capability would do), then the literal FAQ table,
and only when all of those fail the generation capability — and every
successful turn of its node ends with no awaiting handler and an empty
scratchpad. -/
theorem C9_faq_cascade (gen : String → Except String String) (q : String) (s : RootAgentState) :
    (handle_greeting q = true → faq_generate_response gen q = Except.ok faq_greeting_response) ∧
    (handle_greeting q = false → handle_thanks q = true →
      faq_generate_response gen q = Except.ok faq_thanks_response) ∧
    (∀ a, handle_greeting q = false → handle_thanks q = false → search_faq q = some a →
      faq_generate_response gen q = Except.ok a) ∧
    (handle_greeting q = false → handle_thanks q = false → search_faq q = none →
      faq_generate_response gen q = gen q) ∧
    (∀ s2, faq_fallback_node gen s = Except.ok s2 →
      s2.current_agent_awaiting_parameters = none ∧ s2.sub_agent_scratchpad = []) := by
  refine ⟨?_, ?_, ?_, ?_, ?_⟩
  · intro h
    simp [faq_generate_response, h]
  · intro h1 h2
    simp [faq_generate_response, h1, h2]
  · intro a h1 h2 h3
    simp [faq_generate_response, h1, h2, h3]
  · intro h1 h2 h3
    simp [faq_generate_response, h1, h2, h3]
  · exact fun s2 h => faq_fallback_node_clears gen s s2 h

/-- C9 witness: greeting and gratitude inputs are answered with the fixed
texts even when the generation capability would raise, so the generative
tier is not consulted. -/
theorem C9_faq_cascade_witness :
    faq_generate_response genErrFaq "hello there" = Except.ok faq_greeting_response ∧
    faq_generate_response genErrFaq "ok thanks a lot" = Except.ok faq_thanks_response :=
  ⟨(C9_faq_cascade genErrFaq "hello there" (mkState "Consultant" "hello there" none [])).1
    (by decide),
   (C9_faq_cascade genErrFaq "ok thanks a lot" (mkState "Consultant" "ok thanks a lot" none [])).2.1
    (by decide) (by decide)⟩

/-- C10: abandonment is substring containment, not whole-phrase matching;
any utterance whose lowercased text contains an abandonment keyword
anywhere — also inside a longer word — while a handler is awaiting makes
`route` return the fallback handler without consulting the classifier
(even a raising classifier call leaves the decision unchanged). -/
theorem C10_abandonment_substring (out kw : String) (s : RootAgentState)
    (hkw : kw ∈ abandonment_keywords)
    (hsub : containsSub kw (strLower s.user_query) = true)
    (hawait : s.current_agent_awaiting_parameters.isSome = true) :
    route out s = "faq_fallback_agent" ∧
    routeE (Except.error "classifier raised") s = Except.ok "faq_fallback_agent" := by
  have hab : is_abandonment s.user_query = true := by
    unfold is_abandonment
    exact List.any_eq_true.mpr ⟨kw, hkw, hsub⟩
  constructor
  · unfold route
    simp [hab, hawait]
  · unfold routeE
    simp [hab, hawait]

/-- C10 witness: "unstoppable" contains "stop" and "quite" contains
"quit", so both utterances abort an in-progress collection. -/
theorem C10_abandonment_substring_witness :
    route "learning_path_agent"
      (mkState "Consultant" "This task is unstoppable" (some "learning_path_agent") []) = "faq_fallback_agent" ∧
    route "learning_path_agent"
      (mkState "Consultant" "I am quite sure" (some "learning_path_agent") []) = "faq_fallback_agent" :=
  ⟨(C10_abandonment_substring "learning_path_agent" "stop"
      (mkState "Consultant" "This task is unstoppable" (some "learning_path_agent") [])
      (by decide) (by decide) (by decide)).1,
   (C10_abandonment_substring "learning_path_agent" "quit"
      (mkState "Consultant" "I am quite sure" (some "learning_path_agent") [])
      (by decide) (by decide) (by decide)).1⟩

/-- C8: the question-generation validator never reports `question_count`
as missing and installs the fixed default 5 when the count is unset; on
the Admin utterance "Generate 5 Python questions" extraction yields
topic=Python and count=5 and the clarification asks only for the
difficulty. -/
theorem C8_count_default (sp : Scratchpad) (gen : RootAgentState → Except String String) :
    ("question_count" ∉ (qgen_validate sp).1.missing) ∧
    (truthyGet sp "question_count" = false →
      spGet (qgen_validate sp).2 "question_count" = some (Value.num 5)) ∧
    (∀ s2, question_generation_node gen exAdminState5 = Except.ok s2 →
      s2.system_response = "To generate questions, I need:\n- What difficulty level? (Easy/Medium/Hard)" ∧
      s2.current_agent_awaiting_parameters = some "question_generation_agent" ∧
      spGet s2.sub_agent_scratchpad "topic" = some (Value.str "Python") ∧
      spGet s2.sub_agent_scratchpad "question_count" = some (Value.num 5)) := by
  refine ⟨?_, ?_, ?_⟩
  · cases h1 : truthyGet sp "topic" <;> cases h2 : truthyGet sp "difficulty" <;>
      simp [qgen_validate, h1, h2]
  · intro h
    cases h1 : truthyGet sp "topic" <;> cases h2 : truthyGet sp "difficulty" <;>
      simp [qgen_validate, h, h1, h2, spGet_spSet]
  · intro s2 hok
    have hnode : question_generation_node gen exAdminState5 = Except.ok qgenScenarioOut := rfl
    rw [hnode] at hok
    injection hok with h2
    rw [← h2]
    exact ⟨by decide, by decide, by decide, by decide⟩

/-- C8 witness: the default is installed on the empty scratchpad, and the
Scenario-D node output carries topic Python, count 5 and the
difficulty-only clarification. -/
theorem C8_count_default_witness :
    spGet (qgen_validate []).2 "question_count" = some (Value.num 5) ∧
    spGet qgenScenarioOut.sub_agent_scratchpad "topic" = some (Value.str "Python") ∧
    qgenScenarioOut.system_response
      = "To generate questions, I need:\n- What difficulty level? (Easy/Medium/Hard)" := by
  have h := C8_count_default [] genOkAgent
  have h3 := h.2.2 qgenScenarioOut rfl
  exact ⟨h.2.1 (by decide), h3.2.2.1, h3.1⟩

theorem except_bind_ok {ε α β : Type} (a : α) (f : α → Except ε β) :
    Except.bind (Except.ok a : Except ε α) f = f a := rfl

theorem except_bind_error {ε α β : Type} (e : ε) (f : α → Except ε β) :
    Except.bind (Except.error e : Except ε α) f = Except.error e := rfl

theorem dispatch_faq (caps : Caps) (s : RootAgentState) :
    dispatch caps "faq_fallback_agent" s = faq_fallback_node caps.genFaq s := rfl

/-- C4: while a handler is awaiting parameters, an utterance matching an
abandonment phrase makes `route` return the fallback handler immediately
(whatever the classifier call would be — it is not consulted), and a
successfully completed turn ends with `current_agent_awaiting_parameters`
cleared and an empty scratchpad. -/
theorem C4_abandonment_turn (caps : Caps) (s : RootAgentState)
    (hawait : s.current_agent_awaiting_parameters.isSome = true)
    (hab : is_abandonment s.user_query = true) :
    routeE caps.classify s = Except.ok "faq_fallback_agent" ∧
    (∀ s2, process_message caps s = Except.ok s2 →
      s2.current_agent_awaiting_parameters = none ∧ s2.sub_agent_scratchpad = []) := by
  have hroute : routeE caps.classify (with_user_message s) = Except.ok "faq_fallback_agent" := by
    unfold routeE with_user_message
    simp [hab, hawait]
  constructor
  · unfold routeE
    simp [hab, hawait]
  · intro s2 hok
    unfold process_message at hok
    rw [hroute, except_bind_ok, dispatch_faq] at hok
    unfold faq_fallback_node at hok
    cases hg : faq_generate_response caps.genFaq
        (set_current_agent (with_user_message s) "faq_fallback_agent").user_query with
    | error e =>
      rw [hg, except_map_error, except_bind_error] at hok
      exact Except.noConfusion hok
    | ok txt =>
      rw [hg, except_map_ok, except_bind_ok] at hok
      injection hok with h2
      rw [← h2]
      exact ⟨rfl, rfl⟩

/-- C4 witness: "never mind" while the learning-path handler awaits its
parameters routes to the fallback handler and clears the awaiting marker
and scratchpad by the end of the turn. -/
theorem C4_abandonment_turn_witness :
    routeE exCapsOk.classify exStateAbandon = Except.ok "faq_fallback_agent" ∧
    (match process_message exCapsOk exStateAbandon with
     | Except.ok s2 =>
        s2.current_agent_awaiting_parameters = none ∧ s2.sub_agent_scratchpad = []
     | Except.error _ => False) := by
  have h := C4_abandonment_turn exCapsOk exStateAbandon (by decide) (by decide)
  refine ⟨h.1, ?_⟩
  cases hok : process_message exCapsOk exStateAbandon with
  | ok s2 => exact h.2 s2 hok
  | error e =>
    have hcomp : (process_message exCapsOk exStateAbandon).toOption.isSome = true := by decide
    rw [hok] at hcomp
    simp [Except.toOption] at hcomp

theorem except_map_eq_ok {ε α β : Type} (f : α → β) (x : Except ε α) (b : β)
    (h : x.map f = Except.ok b) : ∃ a, x = Except.ok a ∧ b = f a := by
  cases x with
  | error e =>
    rw [except_map_error] at h
    exact Except.noConfusion h
  | ok a =>
    rw [except_map_ok] at h
    injection h with h2
    exact ⟨a, rfl, h2.symm⟩

/-- C5: for each parameter-collecting handler node, an incomplete
validation makes the turn result the clarification text with the handler
recorded as awaiting and the extracted scratchpad kept; a complete
validation makes the turn result the respond text (the generation
capability's output) with the awaiting marker cleared and the scratchpad
emptied.  The question-generation conjunct assumes the node's internal
Admin check passes, since it short-circuits before extraction otherwise. -/
theorem C5_turn_outcome (genA genL genQ : RootAgentState → Except String String)
    (s : RootAgentState) :
    (∀ s2, assignment_review_node genA s = Except.ok s2 →
      ((assignment_validate (assignment_extract s).sub_agent_scratchpad).complete = false →
        s2.system_response
            = (assignment_validate (assignment_extract s).sub_agent_scratchpad).clarification.getD ""
          ∧ s2.current_agent_awaiting_parameters = some "assignment_review_agent"
          ∧ s2.sub_agent_scratchpad = (assignment_extract s).sub_agent_scratchpad) ∧
      ((assignment_validate (assignment_extract s).sub_agent_scratchpad).complete = true →
        genA (assignment_extract s) = Except.ok s2.system_response
          ∧ s2.current_agent_awaiting_parameters = none
          ∧ s2.sub_agent_scratchpad = [])) ∧
    (∀ s2, learning_path_node genL s = Except.ok s2 →
      ((learning_validate (learning_extract s).sub_agent_scratchpad).complete = false →
        s2.system_response
            = (learning_validate (learning_extract s).sub_agent_scratchpad).clarification.getD ""
          ∧ s2.current_agent_awaiting_parameters = some "learning_path_agent"
          ∧ s2.sub_agent_scratchpad = (learning_extract s).sub_agent_scratchpad) ∧
      ((learning_validate (learning_extract s).sub_agent_scratchpad).complete = true →
        genL (learning_extract s) = Except.ok s2.system_response
          ∧ s2.current_agent_awaiting_parameters = none
          ∧ s2.sub_agent_scratchpad = [])) ∧
    (s.user_role = "Admin" →
      ∀ s2, question_generation_node genQ s = Except.ok s2 →
      ((qgen_validate (qgen_extract s).sub_agent_scratchpad).1.complete = false →
        s2.system_response
            = (qgen_validate (qgen_extract s).sub_agent_scratchpad).1.clarification.getD ""
          ∧ s2.current_agent_awaiting_parameters = some "question_generation_agent"
          ∧ s2.sub_agent_scratchpad = (qgen_validate (qgen_extract s).sub_agent_scratchpad).2) ∧
      ((qgen_validate (qgen_extract s).sub_agent_scratchpad).1.complete = true →
        genQ (qgen_validated_state s) = Except.ok s2.system_response
          ∧ s2.current_agent_awaiting_parameters = none
          ∧ s2.sub_agent_scratchpad = [])) := by
  refine ⟨?_, ?_, ?_⟩
  · intro s2 hok
    unfold assignment_review_node at hok
    dsimp only at hok
    constructor
    · intro hv
      rw [if_pos hv] at hok
      injection hok with h2
      rw [← h2]
      exact ⟨rfl, rfl, rfl⟩
    · intro hv
      rw [if_neg (by simp [hv])] at hok
      obtain ⟨txt, hg, hb⟩ := except_map_eq_ok _ _ _ hok
      subst hb
      exact ⟨hg, rfl, rfl⟩
  · intro s2 hok
    unfold learning_path_node at hok
    dsimp only at hok
    constructor
    · intro hv
      rw [if_pos hv] at hok
      injection hok with h2
      rw [← h2]
      exact ⟨rfl, rfl, rfl⟩
    · intro hv
      rw [if_neg (by simp [hv])] at hok
      obtain ⟨txt, hg, hb⟩ := except_map_eq_ok _ _ _ hok
      subst hb
      exact ⟨hg, rfl, rfl⟩
  · intro hrole s2 hok
    unfold question_generation_node at hok
    rw [if_neg (by simp [hrole])] at hok
    dsimp only at hok
    constructor
    · intro hv
      rw [if_pos hv] at hok
      injection hok with h2
      rw [← h2]
      exact ⟨rfl, rfl, rfl⟩
    · intro hv
      rw [if_neg (by simp [hv])] at hok
      obtain ⟨txt, hg, hb⟩ := except_map_eq_ok _ _ _ hok
      subst hb
      exact ⟨hg, rfl, rfl⟩

/-- C5 witness: an assignment query with no recognizable title yields the
clarification turn with the assignment handler awaiting. -/
theorem C5_turn_outcome_witness :
    (match assignment_review_node genOkAgent
        (mkState "Consultant" "How did I do on my assignment" none []) with
     | Except.ok s2 =>
        s2.current_agent_awaiting_parameters = some "assignment_review_agent"
          ∧ s2.system_response
              = "Which assignment are you interested in? Please provide the assignment name or ID."
     | Except.error _ => False) := by
  have h := (C5_turn_outcome genOkAgent genOkAgent genOkAgent
    (mkState "Consultant" "How did I do on my assignment" none [])).1
  cases hok : assignment_review_node genOkAgent
      (mkState "Consultant" "How did I do on my assignment" none []) with
  | ok s2 =>
    have h2 := (h s2 hok).1 (by decide)
    refine ⟨h2.2.1, ?_⟩
    rw [h2.1]
    decide
  | error e =>
    have hcomp : (assignment_review_node genOkAgent
        (mkState "Consultant" "How did I do on my assignment" none [])).toOption.isSome = true := by decide
    rw [hok] at hcomp
    simp [Except.toOption] at hcomp

/-- C1 counterexample: with a raising classifier call on a mid-collection
session, the CLI loop of orchestrator.py `main` converts the turn into an
error message but RESETS `current_agent_awaiting_parameters` (from the
learning-path handler to `None`) and empties the scratchpad instead of
leaving them as they were, and never writes the session's `error` field. -/
theorem C1_counterexample :
    exStateCollecting.current_agent_awaiting_parameters = some "learning_path_agent" ∧
    exStateCollecting.sub_agent_scratchpad = [("topic", Value.str "Python")] ∧
    process_message exCapsFail exStateCollecting = Except.error "classifier raised" ∧
    (main_turn exCapsFail exStateCollecting).current_agent_awaiting_parameters = none ∧
    (main_turn exCapsFail exStateCollecting).sub_agent_scratchpad = [] ∧
    (main_turn exCapsFail exStateCollecting).error = none := by decide

/-- C1 amended: when a capability call raises during a turn, the turn is
converted into a user-visible error response, but the session's `error`
field is never written; the CLI loop explicitly resets
`current_agent_awaiting_parameters` and `sub_agent_scratchpad` (losing the
in-progress collection), while the websocket handler leaves them at their
pre-call values because it does not replace the session on failure. -/
theorem ws_error_session_fields (caps : Caps) (s1 : RootAgentState) :
    (ws_error_session caps s1).current_agent_awaiting_parameters
        = s1.current_agent_awaiting_parameters ∧
    (ws_error_session caps s1).error = s1.error ∧
    (∀ e2, routeE caps.classify (with_user_message s1) = Except.error e2 →
      (ws_error_session caps s1).sub_agent_scratchpad = s1.sub_agent_scratchpad) ∧
    (∀ agent, routeE caps.classify (with_user_message s1) = Except.ok agent →
      (ws_error_session caps s1).sub_agent_scratchpad
        = dispatch_error_scratchpad agent (set_current_agent (with_user_message s1) agent)) := by
  unfold ws_error_session
  cases hr : routeE caps.classify (with_user_message s1) with
  | error e2 =>
    refine ⟨rfl, rfl, ?_, ?_⟩
    · intro e3 _
      rfl
    · intro agent hagent
      exact Except.noConfusion hagent
  | ok agent =>
    refine ⟨rfl, rfl, ?_, ?_⟩
    · intro e3 he3
      exact Except.noConfusion he3
    · intro agent2 hagent2
      injection hagent2 with h3
      rw [← h3]

theorem C1_error_turn (caps : Caps) (s : RootAgentState) (e : String) (q : String)
    (hpm : process_message caps s = Except.error e) :
    (main_turn caps s).current_agent_awaiting_parameters = none ∧
    (main_turn caps s).sub_agent_scratchpad = [] ∧
    (main_turn caps s).error = s.error ∧
    (strTrim q ≠ "" →
      process_message caps { s with user_query := strTrim q } = Except.error e →
      (ws_handle_message caps s q).current_agent_awaiting_parameters
          = s.current_agent_awaiting_parameters ∧
      (ws_handle_message caps s q).error = s.error ∧
      (∀ e2, routeE caps.classify (with_user_message { s with user_query := strTrim q })
          = Except.error e2 →
        (ws_handle_message caps s q).sub_agent_scratchpad = s.sub_agent_scratchpad) ∧
      (∀ agent, routeE caps.classify (with_user_message { s with user_query := strTrim q })
          = Except.ok agent →
        (ws_handle_message caps s q).sub_agent_scratchpad
          = dispatch_error_scratchpad agent
              (set_current_agent (with_user_message { s with user_query := strTrim q }) agent))) := by
  have hmain : main_turn caps s
      = { s with current_agent_awaiting_parameters := none, sub_agent_scratchpad := [] } := by
    unfold main_turn
    rw [hpm]
  refine ⟨by rw [hmain], by rw [hmain], by rw [hmain], ?_⟩
  intro hq hpm2
  have hws : ws_handle_message caps s q = ws_error_session caps { s with user_query := strTrim q } := by
    unfold ws_handle_message
    dsimp only
    rw [if_neg hq, hpm2]
  have hf := ws_error_session_fields caps { s with user_query := strTrim q }
  rw [hws]
  exact ⟨hf.1, hf.2.1, hf.2.2.1, hf.2.2.2⟩

/-- C1 amended witness: a raising classifier on the mid-collection session
exercises the CLI reset and the websocket preservation of the awaiting
marker, error field and (classifier-failure case) scratchpad; a raising
learning-path generation call shows the aliased scratchpad retaining the
extraction writes in the websocket session. -/
theorem C1_error_turn_witness :
    (main_turn exCapsFail exStateCollecting).sub_agent_scratchpad = [] ∧
    (main_turn exCapsFail exStateCollecting).error = exStateCollecting.error ∧
    (ws_handle_message exCapsFail exStateCollecting "hello").sub_agent_scratchpad
      = exStateCollecting.sub_agent_scratchpad ∧
    (ws_handle_message exCapsFail exStateCollecting "hello").current_agent_awaiting_parameters
      = exStateCollecting.current_agent_awaiting_parameters ∧
    (ws_handle_message exCapsGenFail
        (mkState "Consultant" "i want to learn python as a beginner" none [])
        "i want to learn python as a beginner").sub_agent_scratchpad
      = [("topic", Value.str "Python"), ("skill_level", Value.str "Beginner")] := by
  have h := C1_error_turn exCapsFail exStateCollecting "classifier raised" "hello" (by decide)
  have hws := h.2.2.2 (by decide) (by decide)
  have h2 := C1_error_turn exCapsGenFail
    (mkState "Consultant" "i want to learn python as a beginner" none [])
    "generation raised" "i want to learn python as a beginner" (by decide)
  have hws2 := h2.2.2.2 (by decide) (by decide)
  refine ⟨h.2.1, h.2.2.1, hws.2.2.1 "classifier raised" (by decide), hws.1, ?_⟩
  rw [hws2.2.2.2 "learning_path_agent" (by decide)]
  decide

/- ## Concrete sanity checks of the embedding. -/

example : route "learning_path_agent"
    (mkState "Consultant" "never mind" (some "learning_path_agent") []) = "faq_fallback_agent" := by decide

example : route "question_generation_agent"
    (mkState "Consultant" "generate questions" none []) = "faq_fallback_agent" := by decide

example : route " question_generation_agent "
    (mkState "Admin" "generate questions" none []) = "question_generation_agent" := by decide

example : process_message exCapsFail exStateCollecting = Except.error "classifier raised" := by decide

example : is_abandonment "Please STOP this" = true := by decide

example : is_abandonment "tell me about python" = false := by decide
